import Mathlib

/-!
Verification of the libregice register/field cache model (`device.py`) and
clock-tree engine (`clock.py`) via a shallow embedding in Lean.

Register values and field values are Python (unbounded) non-negative
integers, modelled as `Nat`.  Python exceptions are modelled by `Except`
results.  The remote memory-access Port of a register is modelled as a
single memory cell (`mem`) together with a counter of Port reads issued,
and a `portOk` oracle that tells whether a given Port write succeeds.
-/

namespace Libregice

/-! ## Register/field accessors (`device.py`) -/

/-- Cache flag constant `RegiceObject.DISABLED`. -/
def CACHE_DISABLED : Nat := 0

/-- Cache flag constant `RegiceObject.READ` (reads may be served from cache). -/
def CACHE_READ : Nat := 1

/-- Cache flag constant `RegiceObject.WRITE` (writes update the cache only). -/
def CACHE_WRITE : Nat := 2

/-- State of one `RegiceRegister`: the device memory word at its address,
the cached value (`cached_value`, `None` initially), the cache policy flags
(`cache_flags`), and a count of Port reads issued so far (instrumentation
for the Port, which is external to the class). -/
structure RegState where
  mem : Nat
  cached : Option Nat
  cacheFlags : Nat
  portReads : Nat
  deriving DecidableEq

/-- Embeds `RegiceRegister.read(force)`: if `force`, or there is no cached
value, or the policy disallows cached reads, issue a Port read, cache the
result and return it; otherwise return the cached value. -/
def regRead (force : Bool) (s : RegState) : Nat × RegState :=
  if force || s.cached.isNone || s.cacheFlags &&& CACHE_READ == 0 then
    (s.mem, { s with cached := some s.mem, portReads := s.portReads + 1 })
  else
    (s.cached.getD 0, s)

/-- Embeds `RegiceRegister.write(value, force)`: the cached value is set to
`value` first; then, unless write caching is active (and `force` is not
given), a Port write is issued.  `portOk` tells whether that Port write
succeeds; the returned `Bool` is `false` exactly when the Port write raised
an I/O error (in Python the exception propagates, but the object state -- the
already-updated cache -- persists). -/
def regWrite (portOk : Bool) (value : Nat) (force : Bool) (s : RegState) :
    RegState × Bool :=
  let s1 := { s with cached := some value }
  if force || s1.cacheFlags &&& CACHE_WRITE == 0 then
    if portOk then ({ s1 with mem := value }, true) else (s1, false)
  else (s1, true)

/-- Embeds `RegiceField.read(force)`: read the owning register, shift right
by `bitOffset` and mask to `bitWidth` bits. -/
def fieldRead (bitOffset bitWidth : Nat) (force : Bool) (s : RegState) :
    Nat × RegState :=
  let p := regRead force s
  ((p.1 >>> bitOffset) &&& ((1 <<< bitWidth) - 1), p.2)

/-- Embeds `RegiceField.write(value, force_read, force_write)`: read the
owning register, clear the field's bit span (`value & ~mask` on Python
integers, which is `Nat.ldiff value mask`), OR in the shifted new value and
write the register back. -/
def fieldWrite (bitOffset bitWidth value : Nat) (forceRead forceWrite : Bool)
    (portOk : Bool) (s : RegState) : RegState × Bool :=
  let mask := ((1 <<< bitWidth) - 1) <<< bitOffset
  let p := regRead forceRead s
  let cachedValue := Nat.ldiff p.1 mask
  regWrite portOk (cachedValue ||| (value <<< bitOffset)) forceWrite p.2

/-! ## Clock tree (`clock.py`)

Clock nodes read their configuration fields (`en_field`, `div_field`,
`mux_field`, ...) through `RegiceField` accessors; for the clock
claims only the integer value such a field currently reads matters, so a
configured field is modelled as `some v` (the Python attribute is a truthy
object) and an unconfigured one as `none`.  External callback functions
(`get_div`, `get_mux`, `get_freq`) are likewise modelled by the value they
return.  Python exceptions become `Except ClockErr` results; the
`recursionError` case corresponds to Python's `RecursionError` on an
unboundedly deep (cyclic) tree and is reached only when the fuel runs out. -/

/-- Truthiness of an optional Python string (`None` and `''` are falsy). -/
def pyTruthyStr : Option String → Bool
  | none => false
  | some s => !(s == "")

/-- Truthiness of an optional Python integer (`None` and `0` are falsy);
used for `if self.div:`. -/
def pyTruthyNat : Option Nat → Bool
  | none => false
  | some n => !(n == 0)

/-- Divider interpretation mode constant `Divider.ONE_BASED`. -/
def ONE_BASED : Nat := 0

/-- Divider interpretation mode constant `Divider.POWER_OF_TWO`. -/
def POWER_OF_TWO : Nat := 1

/-- Divider interpretation mode constant `Divider.ZERO_TO_GATE`. -/
def ZERO_TO_GATE : Nat := 2

/-- The exceptions (and exception-like faults) the clock code can raise. -/
inductive ClockErr where
  /-- `MissingAttribute` (also raised with a list payload by `Mux._check`). -/
  | missingAttribute (attrs : List String)
  /-- `MissingAttributes`, raised by `Divider._check`. -/
  | missingAttributes (attrs : List String)
  /-- `UnknownClock`. -/
  | unknownClock (name : String)
  /-- `InvalidDivider`. -/
  | invalidDivider
  /-- `InvalidFrequency`, raised by the base `Clock._get_freq`. -/
  | invalidFrequency
  /-- Python `KeyError` from `self.parents[mux]` on an unmapped selector. -/
  | keyError (key : Nat)
  /-- Python `AttributeError` from calling a method on `None` (e.g.
  `None.get_freq()` when a parent did not resolve). -/
  | attributeErrorNone
  /-- Python `TypeError` from `int(None)` (selector with neither a field
  nor an external function; unreachable after `check()`). -/
  | typeErrorNone
  /-- Python `ZeroDivisionError` from `parent_freq / 0`. -/
  | zeroDivisionError
  /-- Python `RecursionError` (fuel exhaustion in this model). -/
  | recursionError
  deriving DecidableEq

/-- Kind-specific configuration of a clock node: the base `Clock` class and
its five subclasses. -/
inductive ClockKind where
  | base : ClockKind
  /-- `FixedClock` with its `freq` attribute. -/
  | fixed (freq : Option Nat) : ClockKind
  /-- `Gate` (all its configuration lives in the shared attributes). -/
  | gate : ClockKind
  /-- `PLL` with its external `get_freq` function, modelled by the value it
  returns (`none` = not configured). -/
  | pll (extGetFreq : Option Nat) : ClockKind
  /-- `Mux` with `mux_field` (value it reads), external `get_mux` (value it
  returns) and the selector-value to parent-name map `parents`. -/
  | mux (muxField : Option Nat) (extGetMux : Option Nat)
      (parents : List (Nat × Option String)) : ClockKind
  /-- `Divider` with `table`, `div`, `div_field` (value it reads),
  `div_type`, and external `get_div` modelled by the value it returns
  (`some none` = configured function returning Python `None`). -/
  | divider (divTable : List (Nat × Nat)) (div : Option Nat)
      (divField : Option Nat) (divType : Nat)
      (extGetDiv : Option (Option Nat)) : ClockKind
  deriving DecidableEq

deriving instance DecidableEq for Except

/-- Shared attributes of a clock node (class `Clock`).  `hasTree` models
whether `self.tree` was bound at construction (a device was given);
`enField`/`rdyField` hold the value the field currently reads. -/
structure Clock where
  parent : Option String := none
  name : Option String := none
  hasTree : Bool := true
  enField : Option Nat := none
  enVal : Nat := 1
  rdyField : Option Nat := none
  rdyVal : Nat := 1
  kind : ClockKind := ClockKind.base
  deriving DecidableEq

/-- The clock registry (`ClockTree.clocks`), a name-to-node dictionary
modelled as an association list with distinct keys. -/
structure ClockTree where
  clocks : List (String × Clock)
  deriving DecidableEq

/-- Embeds `ClockTree.get(name)`: `None` for a falsy name, the node if
registered, otherwise raise `UnknownClock`. -/
def treeGet (t : ClockTree) : Option String → Except ClockErr (Option Clock)
  | none => Except.ok none
  | some s =>
      if s == "" then Except.ok none
      else
        match t.clocks.lookup s with
        | none => Except.error (ClockErr.unknownClock s)
        | some c => Except.ok (some c)

/-- Embeds the parent-registration loop of `Mux._check`: every non-`None`
parent name must be a key of `tree.clocks`. -/
def muxCheckParents (t : ClockTree) :
    List (Nat × Option String) → Except ClockErr Unit
  | [] => Except.ok ()
  | (_, none) :: rest => muxCheckParents t rest
  | (_, some p) :: rest =>
      if (t.clocks.lookup p).isSome then muxCheckParents t rest
      else Except.error (ClockErr.unknownClock p)

/-- Embeds the kind-specific `_check` methods. -/
def clockSubCheck (t : ClockTree) (c : Clock) : Except ClockErr Unit :=
  match c.kind with
  | ClockKind.base => Except.ok ()
  | ClockKind.fixed freq =>
      if freq.isNone then Except.error (ClockErr.missingAttribute ["freq"])
      else Except.ok ()
  | ClockKind.gate =>
      if c.enField.isNone then
        Except.error (ClockErr.missingAttribute ["en_field"])
      else Except.ok ()
  | ClockKind.pll ext =>
      if ext.isNone then Except.error (ClockErr.missingAttribute ["get_freq"])
      else Except.ok ()
  | ClockKind.mux muxField extGetMux parents =>
      if parents.isEmpty then
        Except.error (ClockErr.missingAttribute ["parents"])
      else if muxField.isNone && extGetMux.isNone then
        Except.error (ClockErr.missingAttribute ["mux_field", "ext_get_mux"])
      else if !c.hasTree then
        Except.error (ClockErr.missingAttribute ["tree"])
      else muxCheckParents t parents
  | ClockKind.divider _ div divField _ extGetDiv =>
      if extGetDiv.isSome then Except.ok ()
      else if div.isNone && divField.isNone then
        Except.error (ClockErr.missingAttributes ["div", "div_field"])
      else Except.ok ()

/-- Embeds the raising `Clock.check()`: a falsy `name` or unset `tree` is a
missing attribute, then the kind-specific `_check` runs. -/
def clockCheck (t : ClockTree) (c : Clock) : Except ClockErr Unit :=
  if !pyTruthyStr c.name then Except.error (ClockErr.missingAttribute ["name"])
  else if !c.hasTree then Except.error (ClockErr.missingAttribute ["tree"])
  else clockSubCheck t c

/-- Embeds the non-raising `Clock.build()`: run only `_check` under a
catch-all handler and report a boolean. -/
def clockBuild (t : ClockTree) (c : Clock) : Bool :=
  match clockSubCheck t c with
  | Except.ok _ => true
  | Except.error _ => false

/-- Embeds `ClockTree.build()`: scan every registered node with the
non-raising `build()` and return `true` only if all passed.  Total (no
exception can escape). -/
def treeBuild (t : ClockTree) : Bool :=
  t.clocks.all (fun p => clockBuild t p.2)

/-- Whether the node has a `parents` attribute (only `Mux` does); embeds
`hasattr(clock, 'parents')`. -/
def clockIsMux (c : Clock) : Bool :=
  match c.kind with
  | ClockKind.mux _ _ _ => true
  | _ => false

/-- The declared parent slots of a node (`clock.parents`; empty for
non-Mux nodes, which lack the attribute). -/
def muxDeclaredSlots (c : Clock) : List (Nat × Option String) :=
  match c.kind with
  | ClockKind.mux _ _ parents => parents
  | _ => []

/-- Embeds `ClockTree.get_orphans()`: keep every node for which neither
`clock.parent` is truthy nor (`hasattr(clock, 'parents') and
clock.parents`) holds. -/
def getOrphans (t : ClockTree) : List (String × Clock) :=
  t.clocks.filter
    (fun p => !(pyTruthyStr p.2.parent ||
      (clockIsMux p.2 && !(muxDeclaredSlots p.2).isEmpty)))

/-- Embeds the selector read in `Mux._get_parent`: the external `get_mux`
function if configured, else `int(self.mux_field)` (a `TypeError` when the
field is `None` too). -/
def muxSelector (muxField extGetMux : Option Nat) : Except ClockErr Nat :=
  match extGetMux with
  | some v => Except.ok v
  | none =>
      match muxField with
      | some v => Except.ok v
      | none => Except.error ClockErr.typeErrorNone

/-- Embeds `_get_parent`: the `Mux` override reads the selector, indexes
`self.parents` (Python `KeyError` when the selector value is unmapped) and
resolves the mapped name through the tree; every other kind resolves
`self.parent` through `self.tree.get` (an `AttributeError` if `self.tree`
is `None`). -/
def clockGetParentRaw (t : ClockTree) (c : Clock) :
    Except ClockErr (Option Clock) :=
  match c.kind with
  | ClockKind.mux muxField extGetMux parents =>
      match muxSelector muxField extGetMux with
      | Except.error e => Except.error e
      | Except.ok sel =>
          match parents.lookup sel with
          | none => Except.error (ClockErr.keyError sel)
          | some parentName => treeGet t parentName
  | _ =>
      if c.hasTree then treeGet t c.parent
      else Except.error ClockErr.attributeErrorNone

/-- Embeds `Clock.get_parent()`: `check()` first, then `_get_parent()`. -/
def clockGetParent (t : ClockTree) (c : Clock) :
    Except ClockErr (Option Clock) :=
  match clockCheck t c with
  | Except.error e => Except.error e
  | Except.ok _ => clockGetParentRaw t c

/-- Embeds `Divider._get_div()`.  The result is the Python value the method
returns: `none` models an external function returning `None`.  A falsy
`self.div` (unset or 0) falls through to the field paths; a `div_field`
with a non-empty table is looked up (unmapped index raises
`InvalidDivider`); otherwise only the one-based and power-of-two modes
produce a divisor and every other `div_type` falls through to the final
`raise InvalidDivider`. -/
def dividerGetDiv (divTable : List (Nat × Nat)) (div divField : Option Nat)
    (divType : Nat) (extGetDiv : Option (Option Nat)) :
    Except ClockErr (Option Nat) :=
  match extGetDiv with
  | some r => Except.ok r
  | none =>
      if pyTruthyNat div then Except.ok div
      else
        match divField with
        | some fv =>
            if !divTable.isEmpty then
              match divTable.lookup fv with
              | none => Except.error ClockErr.invalidDivider
              | some d => Except.ok (some d)
            else if divType == ONE_BASED then Except.ok (some fv)
            else if divType == POWER_OF_TWO then Except.ok (some (1 <<< fv))
            else Except.error ClockErr.invalidDivider
        | none => Except.error ClockErr.invalidDivider

/-- Embeds `get_freq()` for every node kind: `check()`, then the
kind-specific `_get_freq()`.  Recursion into the parent consumes one unit
of fuel; Python's float division `int(parent_freq / div)` is modelled as
natural division (the claims never inspect a non-trivial quotient). -/
def clockGetFreq (t : ClockTree) : Nat → Clock → Except ClockErr Nat
  | 0, _ => Except.error ClockErr.recursionError
  | fuel + 1, c =>
      match clockCheck t c with
      | Except.error e => Except.error e
      | Except.ok _ =>
          match c.kind with
          | ClockKind.base => Except.error ClockErr.invalidFrequency
          | ClockKind.fixed freq =>
              match freq with
              | some f => Except.ok f
              | none => Except.error (ClockErr.missingAttribute ["freq"])
          | ClockKind.gate =>
              match clockGetParent t c with
              | Except.error e => Except.error e
              | Except.ok none => Except.error ClockErr.attributeErrorNone
              | Except.ok (some p) => clockGetFreq t fuel p
          | ClockKind.pll ext =>
              match ext with
              | some r => Except.ok r
              | none => Except.ok 0
          | ClockKind.mux _ _ _ =>
              match clockGetParent t c with
              | Except.error e => Except.error e
              | Except.ok none => Except.ok 0
              | Except.ok (some p) => clockGetFreq t fuel p
          | ClockKind.divider divTable div divField divType extGetDiv =>
              match dividerGetDiv divTable div divField divType extGetDiv with
              | Except.error e => Except.error e
              | Except.ok none => Except.ok 0
              | Except.ok (some dn) =>
                  if dn == 0 && divType == ZERO_TO_GATE then Except.ok 0
                  else
                    match clockGetParent t c with
                    | Except.error e => Except.error e
                    | Except.ok none => Except.error ClockErr.attributeErrorNone
                    | Except.ok (some p) =>
                        match clockGetFreq t fuel p with
                        | Except.error e => Except.error e
                        | Except.ok pf =>
                            if dn == 0 then
                              Except.error ClockErr.zeroDivisionError
                            else Except.ok (pf / dn)

/-- Embeds the kind-specific `_enabled()` methods (the local gate test). -/
def clockLocalEnabled (t : ClockTree) (c : Clock) : Except ClockErr Bool :=
  match c.kind with
  | ClockKind.gate =>
      match c.rdyField with
      | some rv => Except.ok (rv == c.rdyVal)
      | none =>
          match c.enField with
          | some ev => Except.ok (ev == c.enVal)
          | none => Except.ok false
  | ClockKind.mux _ _ _ =>
      match clockGetParent t c with
      | Except.error e => Except.error e
      | Except.ok p => Except.ok p.isSome
  | ClockKind.divider divTable div divField divType extGetDiv =>
      match dividerGetDiv divTable div divField divType extGetDiv with
      | Except.error e => Except.error e
      | Except.ok none => Except.ok false
      | Except.ok (some dn) => Except.ok (!(dn == 0 && divType == ZERO_TO_GATE))
  | _ =>
      match c.rdyField with
      | some rv => Except.ok (rv == c.rdyVal)
      | none =>
          match c.enField with
          | some ev => Except.ok (ev == c.enVal)
          | none => Except.ok true

/-- Embeds `Clock.enabled()`: `check()`, then the parent's `enabled()` when
`self.parent` is truthy (in source order, before the local test), then the
bitwise AND of the local `_enabled()` with the parent's state. -/
def clockEnabled (t : ClockTree) : Nat → Clock → Except ClockErr Bool
  | 0, _ => Except.error ClockErr.recursionError
  | fuel + 1, c =>
      match clockCheck t c with
      | Except.error e => Except.error e
      | Except.ok _ =>
          match (if pyTruthyStr c.parent then
                   match clockGetParent t c with
                   | Except.error e => Except.error e
                   | Except.ok none => Except.error ClockErr.attributeErrorNone
                   | Except.ok (some p) => clockEnabled t fuel p
                 else Except.ok true) with
          | Except.error e => Except.error e
          | Except.ok parentEnabled =>
              match clockLocalEnabled t c with
              | Except.error e => Except.error e
              | Except.ok le => Except.ok (le && parentEnabled)

/-! ## Concrete nodes and trees used by the claims -/

/-- A registered `FixedClock` with the given name and frequency. -/
def fixedClk (nm : String) (f : Nat) : Clock :=
  { name := some nm, kind := ClockKind.fixed (some f) }

/-- A registered `Gate` with an enable field currently reading `ev` and no
parent configured. -/
def gateClk (nm : String) (ev : Nat) : Clock :=
  { name := some nm, enField := some ev, kind := ClockKind.gate }

/-- A registered `Divider` with a static divisor and no parent configured. -/
def divStatic (nm : String) (d : Nat) : Clock :=
  { name := some nm, kind := ClockKind.divider [] (some d) none ONE_BASED none }

/-- A registered `Mux` whose selector field currently reads `mf`. -/
def muxClk (nm : String) (mf : Nat) (ps : List (Nat × Option String)) : Clock :=
  { name := some nm, kind := ClockKind.mux (some mf) none ps }

/-- The C6 Mux: parent map `{0: A, 1: B, 3: None}`, selector reading `sel`. -/
def muxABN (sel : Nat) : Clock :=
  muxClk ("mux1") sel [(0, some ("A")), (1, some ("B")), (3, none)]

/-- The C6 tree: registered clocks A and B (Fixed) and the Mux. -/
def treeABN (a b sel : Nat) : ClockTree :=
  { clocks := [("A", fixedClk ("A") a), ("B", fixedClk ("B") b),
               ("mux1", muxABN sel)] }

/-- The C5 Mux: parent map `{0: A}` but selector currently reading 1. -/
def muxSel1 : Clock := muxClk ("m") 1 [(0, some ("A"))]

/-- The C5 tree: A registered, plus the Mux with the unmapped selector. -/
def treeSel1 : ClockTree :=
  { clocks := [("A", fixedClk ("A") 5), ("m", muxSel1)] }

/-- The C4 counterexample tree: a single Gate with no parent configured. -/
def gateOrphanTree : ClockTree := { clocks := [("g", gateClk ("g") 1)] }

/-- A `Divider` parented on `p`, with the given kind-specific config. -/
def divOnP (k : ClockKind) : Clock :=
  { name := some ("d"), parent := some ("p"), kind := k }

/-- A two-node tree: Fixed parent `p` at frequency `f`, plus the node `c`
registered as `d`. -/
def divParentTree (c : Clock) (f : Nat) : ClockTree :=
  { clocks := [("p", fixedClk ("p") f), ("d", c)] }

/-- Divider config: external `get_div` returning 0, mode `dt`. -/
def kindExtZero (dt : Nat) : ClockKind :=
  ClockKind.divider [] none none dt (some (some 0))

/-- Divider config: `div_field` reading `fv` mapped through table `tbl`,
mode `dt`. -/
def kindTableField (tbl : List (Nat × Nat)) (fv dt : Nat) : ClockKind :=
  ClockKind.divider tbl none (some fv) dt none

/-- Divider config: bare `div_field` reading `fv` (no table, no external
function), mode `dt`. -/
def kindBareField (fv dt : Nat) : ClockKind :=
  ClockKind.divider [] none (some fv) dt none

/-- The C7 Mux over the three oscillators (spec scenario). -/
def muxOsc : Clock :=
  muxClk ("mux1") 3
    [(0, some ("osc1")), (1, some ("osc2")), (2, some ("osc3")),
     (3, some ("osc3"))]

/-- The C7 tree: three parentless Fixed roots plus the Mux selecting among
them. -/
def oscMuxTree : ClockTree :=
  { clocks := [("osc1", fixedClk ("osc1") 1234), ("osc2", fixedClk ("osc2") 2345),
               ("osc3", fixedClk ("osc3") 5432), ("mux1", muxOsc)] }

/-- The C8 broken Divider: neither `div` nor `div_field` (nor `get_div`). -/
def dividerMissingCfg : Clock :=
  { name := some ("divbad"), parent := some ("p"),
    kind := ClockKind.divider [] none none ONE_BASED none }

/-- The C8 gate node (validly configured, parented on `p`). -/
def gateOnP : Clock :=
  { name := some ("g"), parent := some ("p"), enField := some 1,
    kind := ClockKind.gate }

/-- The C8 tree: a valid Fixed root, one misconfigured Divider, and a valid
Gate. -/
def treeScan : ClockTree :=
  { clocks := [("p", fixedClk ("p") 10), ("divbad", dividerMissingCfg),
               ("g", gateOnP)] }

/-- A `FixedClock` whose `name` was never set (C10). -/
def namelessFixed (f : Nat) : Clock :=
  { name := none, kind := ClockKind.fixed (some f) }

/-! ## Theorems -/

/-! Bit-level helper lemmas about the read-modify-write composition that
`fieldWrite` performs on the register value. -/

/-- The composed register value read back through a field view yields the
written value masked to the field width, for every (unbounded) `value`. -/
theorem compose_readback (o w m v : Nat) :
    ((Nat.ldiff m (((1 <<< w) - 1) <<< o) ||| (v <<< o)) >>> o) &&&
      ((1 <<< w) - 1) = v &&& ((1 <<< w) - 1) := by
  apply Nat.eq_of_testBit_eq
  intro i
  simp only [Nat.one_shiftLeft, Nat.testBit_and, Nat.testBit_shiftRight,
    Nat.testBit_or, Nat.testBit_ldiff, Nat.testBit_shiftLeft,
    Nat.testBit_two_pow_sub_one, ge_iff_le, Nat.le_add_right, decide_True,
    Bool.true_and, Nat.add_sub_cancel_left]
  rcases Nat.lt_or_ge i w with h | h
  · simp [h]
  · simp [Nat.not_lt_of_ge h]

/-- Bits outside the field span are unchanged by the composition, provided
the written value fits in the field width. -/
theorem compose_outside (o w m v : Nat) (hv : v < 2 ^ w) :
    Nat.ldiff (Nat.ldiff m (((1 <<< w) - 1) <<< o) ||| (v <<< o))
        (((1 <<< w) - 1) <<< o) =
      Nat.ldiff m (((1 <<< w) - 1) <<< o) := by
  apply Nat.eq_of_testBit_eq
  intro i
  simp only [Nat.one_shiftLeft, Nat.testBit_ldiff, Nat.testBit_or,
    Nat.testBit_shiftLeft, Nat.testBit_two_pow_sub_one, ge_iff_le]
  rcases Nat.lt_or_ge i o with h | h
  · simp [Nat.not_le_of_lt h]
  · rcases Nat.lt_or_ge (i - o) w with h2 | h2
    · simp [h, h2]
    · have hbit : v.testBit (i - o) = false :=
        Nat.testBit_lt_two_pow (Nat.lt_of_lt_of_le hv (Nat.pow_le_pow_right (by omega) h2))
      simp [h, h2, hbit]

/-- With the default (transparent) policy, `fieldWrite` leaves the register
holding the old value with the field span cleared, OR-ed with the shifted
written value. -/
theorem fieldWrite_state (o w v : Nat) (s : RegState)
    (hflags : s.cacheFlags = CACHE_DISABLED) :
    (fieldWrite o w v false false true s).1 =
      { mem := Nat.ldiff s.mem (((1 <<< w) - 1) <<< o) ||| (v <<< o),
        cached := some (Nat.ldiff s.mem (((1 <<< w) - 1) <<< o) ||| (v <<< o)),
        cacheFlags := s.cacheFlags,
        portReads := s.portReads + 1 } := by
  simp [fieldWrite, regRead, regWrite, hflags, CACHE_DISABLED, CACHE_READ,
    CACHE_WRITE]

/-- C1 (counterexample): for `v >= 2^w` the excess bits of `v` are OR-ed
into the register above the field span.  Field of width 1 at offset 0 on a
register holding 0 (cache disabled): writing `v = 2` sets bit 1, which lies
outside the span `[0, 1)`, so not every bit outside the span is preserved. -/
theorem field_write_overflow_clobbers :
    Nat.testBit (fieldWrite 0 1 2 false false true
      { mem := 0, cached := none, cacheFlags := 0, portReads := 0 }).1.mem 1 = true ∧
    Nat.testBit (RegState.mem
      { mem := 0, cached := none, cacheFlags := 0, portReads := 0 }) 1 = false := by
  rw [fieldWrite_state 0 1 2 _ rfl]
  constructor
  · simp only [Nat.testBit_or, Nat.testBit_ldiff]
    decide
  · decide

/-- C1 (amended): for every field (width `w`, offset `o`) on a register with
the default transparent cache policy, and every value `v < 2^w`, a field
write followed by a field read returns `v &&& ((1 <<< w) - 1)` and every bit
of the register outside the span `[o, o + w)` is unchanged (both sides with
the span cleared by `ldiff` agree).  For `v >= 2^w` the read-back still
holds but bits above the span may be clobbered. -/
theorem field_write_read_masked (o w v : Nat) (s : RegState)
    (hflags : s.cacheFlags = CACHE_DISABLED) (hv : v < 2 ^ w) :
    (fieldRead o w false (fieldWrite o w v false false true s).1).1 =
      v &&& ((1 <<< w) - 1) ∧
    Nat.ldiff (fieldWrite o w v false false true s).1.mem
        (((1 <<< w) - 1) <<< o) =
      Nat.ldiff s.mem (((1 <<< w) - 1) <<< o) := by
  rw [fieldWrite_state o w v s hflags]
  constructor
  · have hread : (fieldRead o w false
        { mem := Nat.ldiff s.mem (((1 <<< w) - 1) <<< o) ||| (v <<< o),
          cached := some (Nat.ldiff s.mem (((1 <<< w) - 1) <<< o) ||| (v <<< o)),
          cacheFlags := s.cacheFlags,
          portReads := s.portReads + 1 }).1 =
        ((Nat.ldiff s.mem (((1 <<< w) - 1) <<< o) ||| (v <<< o)) >>> o) &&&
          ((1 <<< w) - 1) := by
      simp [fieldRead, regRead, hflags, CACHE_DISABLED, CACHE_READ]
    rw [hread]
    exact compose_readback o w s.mem v
  · exact compose_outside o w s.mem v hv

/-- Witness for `field_write_read_masked`: the spec's concrete scenario,
register preloaded to 0x00100003, field at bits [2:3], writing 0. -/
theorem field_write_read_masked_witness :
    (fieldRead 2 2 false (fieldWrite 2 2 0 false false true
      { mem := 0x00100003, cached := none, cacheFlags := 0, portReads := 0 }).1).1 =
      0 &&& ((1 <<< 2) - 1) ∧
    Nat.ldiff (fieldWrite 2 2 0 false false true
        { mem := 0x00100003, cached := none, cacheFlags := 0, portReads := 0 }).1.mem
        (((1 <<< 2) - 1) <<< 2) =
      Nat.ldiff 0x00100003 (((1 <<< 2) - 1) <<< 2) :=
  field_write_read_masked 2 2 0
    { mem := 0x00100003, cached := none, cacheFlags := 0, portReads := 0 }
    rfl (by decide)

/-- C3: under the transparent policy (cache flags disabled) every `read()`
issues a Port read; under the read-through policy a first `read()` (no
cached value yet) issues a Port read and a second `read()` with no
intervening write issues none and returns the same (cached) value with the
state unchanged. -/
theorem read_cache_policies (s t : RegState)
    (hs : s.cacheFlags = CACHE_DISABLED) (ht : t.cacheFlags = CACHE_READ)
    (htc : t.cached = none) :
    (regRead false s).2.portReads = s.portReads + 1 ∧
    (regRead false t).2.portReads = t.portReads + 1 ∧
    regRead false (regRead false t).2 = ((regRead false t).1, (regRead false t).2) := by
  refine ⟨?_, ?_, ?_⟩ <;>
    simp [regRead, hs, ht, htc, CACHE_DISABLED, CACHE_READ]

/-- Witness for `read_cache_policies` at concrete register states. -/
theorem read_cache_policies_witness :
    (regRead false { mem := 5, cached := none, cacheFlags := 0, portReads := 0 }).2.portReads =
      RegState.portReads { mem := 5, cached := none, cacheFlags := 0, portReads := 0 } + 1 ∧
    (regRead false { mem := 7, cached := none, cacheFlags := 1, portReads := 0 }).2.portReads =
      RegState.portReads { mem := 7, cached := none, cacheFlags := 1, portReads := 0 } + 1 ∧
    regRead false (regRead false { mem := 7, cached := none, cacheFlags := 1, portReads := 0 }).2 =
      ((regRead false { mem := 7, cached := none, cacheFlags := 1, portReads := 0 }).1,
       (regRead false { mem := 7, cached := none, cacheFlags := 1, portReads := 0 }).2) :=
  read_cache_policies
    { mem := 5, cached := none, cacheFlags := 0, portReads := 0 }
    { mem := 7, cached := none, cacheFlags := 1, portReads := 0 }
    rfl rfl rfl

/-- C9: `RegiceRegister.write` updates the cache before issuing the Port
write, so when the Port write is issued (write caching off) and fails, the
error propagates (`false`), the cache already holds the new value, and
device memory is unchanged. -/
theorem write_cache_updated_on_port_error (s : RegState) (v : Nat)
    (hs : s.cacheFlags &&& CACHE_WRITE = 0) :
    (regWrite false v false s).2 = false ∧
    (regWrite false v false s).1.cached = some v ∧
    (regWrite false v false s).1.mem = s.mem := by
  have h2 : s.cacheFlags &&& 2 = 0 := hs
  simp [regWrite, CACHE_WRITE, h2]

/-- Witness for `write_cache_updated_on_port_error` at a concrete state. -/
theorem write_cache_updated_on_port_error_witness :
    (regWrite false 9 false { mem := 4, cached := none, cacheFlags := 0, portReads := 0 }).2 = false ∧
    (regWrite false 9 false { mem := 4, cached := none, cacheFlags := 0, portReads := 0 }).1.cached = some 9 ∧
    (regWrite false 9 false { mem := 4, cached := none, cacheFlags := 0, portReads := 0 }).1.mem =
      RegState.mem { mem := 4, cached := none, cacheFlags := 0, portReads := 0 } :=
  write_cache_updated_on_port_error
    { mem := 4, cached := none, cacheFlags := 0, portReads := 0 } 9 rfl

/-- C6: for a Mux with parent map `{0: A, 1: B, 3: None}` over registered
clocks A and B, a selector reading 3 yields `get_parent() = None`,
`get_frequency() = 0` and `enabled() = False` without error, and a selector
reading 1 yields `get_parent() = B`. -/
theorem mux_explicit_none_selection (a b fuel : Nat) :
    clockGetParent (treeABN a b 3) (muxABN 3) = Except.ok none ∧
    clockGetFreq (treeABN a b 3) (fuel + 1) (muxABN 3) = Except.ok 0 ∧
    clockEnabled (treeABN a b 3) (fuel + 1) (muxABN 3) = Except.ok false ∧
    clockGetParent (treeABN a b 1) (muxABN 1) =
      Except.ok (some (fixedClk ("B") b)) := by
  refine ⟨?_, ?_, ?_, ?_⟩ <;>
    simp [clockGetParent, clockGetFreq, clockEnabled, clockCheck,
      clockSubCheck, clockGetParentRaw, muxSelector, treeGet, muxCheckParents,
      clockLocalEnabled, pyTruthyStr, muxABN, treeABN, muxClk, fixedClk,
      List.lookup]

/-- C5 (counterexample): a Mux whose parent map is `{0: A}` while its live
selector reads 1 passes both validation surfaces (`check()` raises nothing,
`build()` returns `True`), and only the query `get_parent()` fails, with a
`KeyError` -- the unmapped selector is not a validation failure. -/
theorem mux_unmapped_selector_validates :
    clockCheck treeSel1 muxSel1 = Except.ok () ∧
    clockBuild treeSel1 muxSel1 = true ∧
    clockGetParent treeSel1 muxSel1 = Except.error (ClockErr.keyError 1) := by
  decide

/-- C5 (amended): for every Mux whose configuration passes `_check` (named,
non-empty map, selector field present, all mapped parents registered) but
whose live selector value `mf` has no entry in the map, both validation
surfaces succeed and the failure surfaces only at query time, as a
`KeyError` from `get_parent()`. -/
theorem mux_unmapped_selector_query_error (t : ClockTree) (nm : String)
    (mf : Nat) (ps : List (Nat × Option String))
    (h1 : (nm == "") = false) (h2 : ps.isEmpty = false)
    (h3 : muxCheckParents t ps = Except.ok ())
    (h4 : ps.lookup mf = none) :
    clockCheck t (muxClk nm mf ps) = Except.ok () ∧
    clockBuild t (muxClk nm mf ps) = true ∧
    clockGetParent t (muxClk nm mf ps) = Except.error (ClockErr.keyError mf) := by
  refine ⟨?_, ?_, ?_⟩ <;>
    simp [clockCheck, clockBuild, clockSubCheck, clockGetParent,
      clockGetParentRaw, muxSelector, muxClk, pyTruthyStr, h1, h2, h3, h4]

/-- Witness for `mux_unmapped_selector_query_error` on the C5 scenario. -/
theorem mux_unmapped_selector_query_error_witness :
    clockCheck treeSel1 (muxClk ("m") 1 [(0, some ("A"))]) = Except.ok () ∧
    clockBuild treeSel1 (muxClk ("m") 1 [(0, some ("A"))]) = true ∧
    clockGetParent treeSel1 (muxClk ("m") 1 [(0, some ("A"))]) =
      Except.error (ClockErr.keyError 1) :=
  mux_unmapped_selector_query_error treeSel1 ("m") 1 [(0, some ("A"))]
    rfl rfl (by decide) rfl

/-- C4 (counterexample): a validly configured Gate with no parent does not
yield frequency 0: `get_frequency()` calls `None.get_freq()` and raises an
`AttributeError`. -/
theorem gate_no_parent_raises :
    clockGetFreq gateOrphanTree 2 (gateClk ("g") 1) =
      Except.error ClockErr.attributeErrorNone ∧
    clockGetFreq gateOrphanTree 2 (gateClk ("g") 1) ≠ Except.ok 0 := by
  decide

/-- C4 (amended): a Gate or Divider that is otherwise validly configured
but has no parent configured raises an `AttributeError` from
`get_frequency()` (the `None` parent is dereferenced); the graceful
degradation to 0 holds only for the kinds that handle a missing parent
explicitly (Mux, cf. `mux_explicit_none_selection`). -/
theorem unparented_gate_divider_raise (t : ClockTree) (fuel : Nat)
    (nm1 nm2 : String) (ev d : Nat)
    (h1 : (nm1 == "") = false) (h2 : (nm2 == "") = false)
    (h3 : (d == 0) = false) :
    clockGetFreq t (fuel + 1) (gateClk nm1 ev) =
      Except.error ClockErr.attributeErrorNone ∧
    clockGetFreq t (fuel + 1) (divStatic nm2 d) =
      Except.error ClockErr.attributeErrorNone := by
  constructor <;>
    simp [clockGetFreq, clockCheck, clockSubCheck, clockGetParent,
      clockGetParentRaw, treeGet, gateClk, divStatic, pyTruthyStr,
      pyTruthyNat, dividerGetDiv, ZERO_TO_GATE, ONE_BASED, h1, h2, h3]

/-- Witness for `unparented_gate_divider_raise` at concrete nodes. -/
theorem unparented_gate_divider_raise_witness :
    clockGetFreq gateOrphanTree (1 + 1) (gateClk ("g") 1) =
      Except.error ClockErr.attributeErrorNone ∧
    clockGetFreq gateOrphanTree (1 + 1) (divStatic ("d") 2) =
      Except.error ClockErr.attributeErrorNone :=
  unparented_gate_divider_raise gateOrphanTree 1 ("g") ("d") 1 2 rfl rfl rfl

/-- C10: the two validation surfaces check different predicates: for a
`FixedClock` whose `name` is unset (but `freq` configured), the raising
`check()` raises the missing-attribute error for `name`, while the
non-raising `build()` runs only the kind-specific `_check` and returns
`True`. -/
theorem check_vs_build_surfaces (t : ClockTree) (f : Nat) :
    clockCheck t (namelessFixed f) =
      Except.error (ClockErr.missingAttribute ["name"]) ∧
    clockBuild t (namelessFixed f) = true :=
  ⟨rfl, rfl⟩

/-- C2 (counterexample): a zero-to-gate Divider whose divisor comes from a
bare selector field reading 0 does not return frequency 0: `_get_div` only
interprets the one-based and power-of-two modes for a bare field, so it
falls through and raises `InvalidDivider`. -/
theorem divider_ztg_bare_field_raises :
    clockGetFreq (divParentTree (divOnP (kindBareField 0 ZERO_TO_GATE)) 1000) 2
        (divOnP (kindBareField 0 ZERO_TO_GATE)) =
      Except.error ClockErr.invalidDivider ∧
    clockGetFreq (divParentTree (divOnP (kindBareField 0 ZERO_TO_GATE)) 1000) 2
        (divOnP (kindBareField 0 ZERO_TO_GATE)) ≠ Except.ok 0 := by
  decide

/-- C2 (amended): with a Fixed parent of frequency `f`: a zero-to-gate
Divider whose divisor resolves to 0 through the external function or
through a table entry yields `get_frequency() = 0` and `enabled() = False`
without raising; a zero-to-gate Divider with a bare selector field raises
`InvalidDivider` (that mode has no bare-field interpretation); and in every
other mode `dt` (one-based, power-of-two, or any other `div_type` value) a
divisor resolved to 0 -- through the external function or through a table
entry, the two paths that can resolve 0 in every such mode, plus the bare
field in one-based mode, the only mode whose bare field can read 0 --
makes `get_frequency()` raise `ZeroDivisionError`, not `InvalidDivider`. -/
theorem divider_zero_divisor_modes (f fv fuel dt : Nat) (tbl : List (Nat × Nat))
    (h1 : tbl.isEmpty = false) (h2 : tbl.lookup fv = some 0)
    (hdt : (dt == ZERO_TO_GATE) = false) :
    clockGetFreq (divParentTree (divOnP (kindExtZero ZERO_TO_GATE)) f)
        (fuel + 2) (divOnP (kindExtZero ZERO_TO_GATE)) = Except.ok 0 ∧
    clockEnabled (divParentTree (divOnP (kindExtZero ZERO_TO_GATE)) f)
        (fuel + 2) (divOnP (kindExtZero ZERO_TO_GATE)) = Except.ok false ∧
    clockGetFreq (divParentTree (divOnP (kindTableField tbl fv ZERO_TO_GATE)) f)
        (fuel + 2) (divOnP (kindTableField tbl fv ZERO_TO_GATE)) = Except.ok 0 ∧
    clockEnabled (divParentTree (divOnP (kindTableField tbl fv ZERO_TO_GATE)) f)
        (fuel + 2) (divOnP (kindTableField tbl fv ZERO_TO_GATE)) = Except.ok false ∧
    clockGetFreq (divParentTree (divOnP (kindBareField fv ZERO_TO_GATE)) f)
        (fuel + 2) (divOnP (kindBareField fv ZERO_TO_GATE)) =
      Except.error ClockErr.invalidDivider ∧
    clockGetFreq (divParentTree (divOnP (kindExtZero dt)) f)
        (fuel + 2) (divOnP (kindExtZero dt)) =
      Except.error ClockErr.zeroDivisionError ∧
    clockGetFreq (divParentTree (divOnP (kindTableField tbl fv dt)) f)
        (fuel + 2) (divOnP (kindTableField tbl fv dt)) =
      Except.error ClockErr.zeroDivisionError ∧
    clockGetFreq (divParentTree (divOnP (kindBareField 0 ONE_BASED)) f)
        (fuel + 2) (divOnP (kindBareField 0 ONE_BASED)) =
      Except.error ClockErr.zeroDivisionError := by
  have hdt2 : (dt == 2) = false := hdt
  refine ⟨?_, ?_, ?_, ?_, ?_, ?_, ?_, ?_⟩ <;>
    simp [clockGetFreq, clockEnabled, clockCheck, clockSubCheck,
      clockGetParent, clockGetParentRaw, clockLocalEnabled, dividerGetDiv,
      muxSelector, treeGet, divOnP, divParentTree, fixedClk, kindExtZero,
      kindTableField, kindBareField, pyTruthyStr, pyTruthyNat, ONE_BASED,
      POWER_OF_TWO, ZERO_TO_GATE, List.lookup, h1, h2, hdt2]

/-- Witness for `divider_zero_divisor_modes` with table `{7: 0}` and
power-of-two as the non-zero-to-gate mode. -/
theorem divider_zero_divisor_modes_witness :
    clockGetFreq (divParentTree (divOnP (kindExtZero ZERO_TO_GATE)) 1000)
        (0 + 2) (divOnP (kindExtZero ZERO_TO_GATE)) = Except.ok 0 ∧
    clockEnabled (divParentTree (divOnP (kindExtZero ZERO_TO_GATE)) 1000)
        (0 + 2) (divOnP (kindExtZero ZERO_TO_GATE)) = Except.ok false ∧
    clockGetFreq (divParentTree (divOnP (kindTableField [(7, 0)] 7 ZERO_TO_GATE)) 1000)
        (0 + 2) (divOnP (kindTableField [(7, 0)] 7 ZERO_TO_GATE)) = Except.ok 0 ∧
    clockEnabled (divParentTree (divOnP (kindTableField [(7, 0)] 7 ZERO_TO_GATE)) 1000)
        (0 + 2) (divOnP (kindTableField [(7, 0)] 7 ZERO_TO_GATE)) = Except.ok false ∧
    clockGetFreq (divParentTree (divOnP (kindBareField 7 ZERO_TO_GATE)) 1000)
        (0 + 2) (divOnP (kindBareField 7 ZERO_TO_GATE)) =
      Except.error ClockErr.invalidDivider ∧
    clockGetFreq (divParentTree (divOnP (kindExtZero POWER_OF_TWO)) 1000)
        (0 + 2) (divOnP (kindExtZero POWER_OF_TWO)) =
      Except.error ClockErr.zeroDivisionError ∧
    clockGetFreq (divParentTree (divOnP (kindTableField [(7, 0)] 7 POWER_OF_TWO)) 1000)
        (0 + 2) (divOnP (kindTableField [(7, 0)] 7 POWER_OF_TWO)) =
      Except.error ClockErr.zeroDivisionError ∧
    clockGetFreq (divParentTree (divOnP (kindBareField 0 ONE_BASED)) 1000)
        (0 + 2) (divOnP (kindBareField 0 ONE_BASED)) =
      Except.error ClockErr.zeroDivisionError :=
  divider_zero_divisor_modes 1000 7 0 POWER_OF_TWO [(7, 0)] rfl rfl rfl

/-- C7: `get_orphans()` returns exactly the registered nodes whose single
`parent` is falsy and whose Mux parent-slot map (empty for non-Mux kinds)
is empty -- independent of what any Mux selector currently resolves to and
of appearing as a candidate in some Mux's map.  On the spec scenario
(roots osc1, osc2, osc3 and a Mux selecting among them) it returns exactly
the three oscillators. -/
theorem get_orphans_characterization :
    (∀ (t : ClockTree) (nm : String) (c : Clock),
        (nm, c) ∈ getOrphans t ↔
          ((nm, c) ∈ t.clocks ∧ pyTruthyStr c.parent = false ∧
            muxDeclaredSlots c = [])) ∧
    getOrphans oscMuxTree =
      [("osc1", fixedClk ("osc1") 1234), ("osc2", fixedClk ("osc2") 2345),
       ("osc3", fixedClk ("osc3") 5432)] := by
  constructor
  · intro t nm c
    simp only [getOrphans, List.mem_filter, Bool.not_eq_true', Bool.or_eq_false_iff,
      Bool.and_eq_false_iff]
    constructor
    · rintro ⟨hm, hp, hs⟩
      refine ⟨hm, hp, ?_⟩
      rcases hs with hs | hs
      · rcases c with ⟨p, n, ht, ef, ev, rf, rv, k⟩
        cases k <;> simp_all [clockIsMux, muxDeclaredSlots]
      · rcases c with ⟨p, n, ht, ef, ev, rf, rv, k⟩
        cases k <;> simp_all [muxDeclaredSlots]
    · rintro ⟨hm, hp, hs⟩
      refine ⟨hm, hp, ?_⟩
      right
      simp [hs]
  · decide

/-- C8: `ClockTree.build()` visits every node with the non-raising
`build()` (it is a total boolean scan, so no exception propagates), and
returns `true` iff every node passed.  On a tree where exactly one Divider
is missing both `div` and `div_field`, it returns `false` while every
other node still individually validates. -/
theorem tree_build_scan :
    (∀ t : ClockTree,
        treeBuild t = true ↔ ∀ p ∈ t.clocks, clockBuild t p.2 = true) ∧
    treeBuild treeScan = false ∧
    clockBuild treeScan (fixedClk ("p") 10) = true ∧
    clockBuild treeScan gateOnP = true ∧
    clockBuild treeScan dividerMissingCfg = false := by
  refine ⟨fun t => ?_, by decide, by decide, by decide, by decide⟩
  simp [treeBuild, List.all_eq_true]

end Libregice
